import Mathlib

set_option maxHeartbeats 1000000

namespace ConvexStripe

/-! # Data model

Shallow embedding of src/src/component/schema.ts. Each stored row carries
the storage-internal system fields (the `_id` document id and the
`_creationTime` timestamp) alongside the document data; the public query
surface of src/src/component/public.ts destructures rows as
`\x7b _id, _creationTime, ...data \x7d` and returns only `data`. We model a row
as a `Row` wrapper (`sysId` for `_id`, `sysCreationTime` for `_creationTime`)
around the typed document data, so "stripping system fields" is the
projection `Row.data`. Untyped `v.any()` metadata maps are modelled as an
opaque association list of strings. Numbers are modelled as `Int`. -/

abbrev Metadata := List (String × String)

structure Product where
  stripeProductId : String
  name : String
  description : Option String
  active : Bool
  type : Option String
  defaultPriceId : Option String
  metadata : Option Metadata
  images : Option (List String)
deriving DecidableEq

structure PriceTier where
  upTo : Option Int
  flatAmount : Option Int
  unitAmount : Option Int
deriving DecidableEq

structure Price where
  stripePriceId : String
  stripeProductId : String
  active : Bool
  currency : String
  type : String
  unitAmount : Option Int
  description : Option String
  lookupKey : Option String
  recurringInterval : Option String
  recurringIntervalCount : Option Int
  trialPeriodDays : Option Int
  usageType : Option String
  billingScheme : Option String
  tiersMode : Option String
  tiers : Option (List PriceTier)
  metadata : Option Metadata
deriving DecidableEq

structure Customer where
  stripeCustomerId : String
  email : Option String
  name : Option String
  metadata : Option Metadata
deriving DecidableEq

structure Subscription where
  stripeSubscriptionId : String
  stripeCustomerId : String
  status : String
  currentPeriodEnd : Int
  cancelAtPeriodEnd : Bool
  cancelAt : Option Int
  quantity : Option Int
  priceId : String
  metadata : Option Metadata
  orgId : Option String
  userId : Option String
deriving DecidableEq

structure Payment where
  stripePaymentIntentId : String
  stripeCustomerId : Option String
  amount : Int
  currency : String
  status : String
  created : Int
  metadata : Option Metadata
  orgId : Option String
  userId : Option String
deriving DecidableEq

structure Invoice where
  stripeInvoiceId : String
  stripeCustomerId : String
  stripeSubscriptionId : Option String
  status : String
  amountDue : Int
  amountPaid : Int
  created : Int
  orgId : Option String
  userId : Option String
deriving DecidableEq

/-- A stored row: document data plus the storage-internal system fields. -/
structure Row (α : Type) where
  sysId : Nat
  sysCreationTime : Nat
  data : α
deriving DecidableEq

/-- The whole store, one table per entity kind of the schema. Lists keep
insertion order, matching the default ordering of a table scan. -/
structure Store where
  products : List (Row Product)
  prices : List (Row Price)
  customers : List (Row Customer)
  subscriptions : List (Row Subscription)
  payments : List (Row Payment)
  invoices : List (Row Invoice)
deriving DecidableEq

/-- Convex `.unique()`: `none` when the query matches no row, the row when
it matches exactly one, and a thrown error when it matches several. -/
def uniqueQ {α : Type} : List α → Except String (Option α)
  | [] => .ok none
  | [a] => .ok (some a)
  | _ => .error "unique query matched more than one document"

/-- The JavaScript `null` value, the return value of mutations declared
with `returns: v.null()`. -/
inductive ConvexNull
  | null
deriving DecidableEq

-- Index predicates (an index equality scan is a filter in this model).

def productMatches (pid : String) (r : Row Product) : Bool :=
  r.data.stripeProductId == pid

def priceMatchesProduct (pid : String) (r : Row Price) : Bool :=
  r.data.stripeProductId == pid

def custMatches (cid : String) (r : Row Customer) : Bool :=
  r.data.stripeCustomerId == cid

def subMatches (sid : String) (r : Row Subscription) : Bool :=
  r.data.stripeSubscriptionId == sid

def invoiceMatchesCustomer (cid : String) (r : Row Invoice) : Bool :=
  r.data.stripeCustomerId == cid

def invoiceMatchesOrg (oid : String) (r : Row Invoice) : Bool :=
  r.data.orgId == some oid

def invoiceMatchesUser (uid : String) (r : Row Invoice) : Bool :=
  r.data.userId == some uid

def priceMatches (pid : String) (r : Row Price) : Bool :=
  r.data.stripePriceId == pid

def priceMatchesLookup (k : String) (r : Row Price) : Bool :=
  r.data.lookupKey == some k

def subMatchesCustomer (cid : String) (r : Row Subscription) : Bool :=
  r.data.stripeCustomerId == cid

def subMatchesOrg (oid : String) (r : Row Subscription) : Bool :=
  r.data.orgId == some oid

def subMatchesUser (uid : String) (r : Row Subscription) : Bool :=
  r.data.userId == some uid

def paymentMatches (pid : String) (r : Row Payment) : Bool :=
  r.data.stripePaymentIntentId == pid

def paymentMatchesCustomer (cid : String) (r : Row Payment) : Bool :=
  r.data.stripeCustomerId == some cid

def paymentMatchesOrg (oid : String) (r : Row Payment) : Bool :=
  r.data.orgId == some oid

def paymentMatchesUser (uid : String) (r : Row Payment) : Bool :=
  r.data.userId == some uid

/-! # Public queries (src/src/component/public.ts) -/

/-- `getProduct`: unique lookup on the by_stripe_product_id index, system
fields stripped from the result. -/
def getProduct (s : Store) (stripeProductId : String) :
    Except String (Option Product) :=
  match uniqueQ (s.products.filter (productMatches stripeProductId)) with
  | .error e => .error e
  | .ok none => .ok none
  | .ok (some row) => .ok (some row.data)

/-- `listProducts`: full scan, system fields stripped. -/
def listProducts (s : Store) : List Product :=
  s.products.map Row.data

/-- `listActiveProducts`: by_active index scan with `active = true`. -/
def listActiveProducts (s : Store) : List Product :=
  (s.products.filter (fun r => r.data.active == true)).map Row.data

/-- `listPricesByProduct`: by_stripe_product_id index scan. -/
def listPricesByProduct (s : Store) (stripeProductId : String) : List Price :=
  (s.prices.filter (priceMatchesProduct stripeProductId)).map Row.data

/-- `listActivePricesByProduct`: by_stripe_product_id index scan, then a
JavaScript-level filter on the active flag, then stripping. -/
def listActivePricesByProduct (s : Store) (stripeProductId : String) :
    List Price :=
  ((s.prices.filter (priceMatchesProduct stripeProductId)).filter
      (fun r => r.data.active)).map Row.data

/-- `getProductWithPrices`: unique product lookup; when found, also the
by_stripe_product_id scan of prices, everything stripped. -/
def getProductWithPrices (s : Store) (stripeProductId : String) :
    Except String (Option (Product × List Price)) :=
  match uniqueQ (s.products.filter (productMatches stripeProductId)) with
  | .error e => .error e
  | .ok none => .ok none
  | .ok (some row) =>
      .ok (some (row.data,
        (s.prices.filter (priceMatchesProduct stripeProductId)).map Row.data))

/-- `getSubscription`: unique lookup on by_stripe_subscription_id. -/
def getSubscription (s : Store) (stripeSubscriptionId : String) :
    Except String (Option Subscription) :=
  match uniqueQ (s.subscriptions.filter (subMatches stripeSubscriptionId)) with
  | .error e => .error e
  | .ok none => .ok none
  | .ok (some row) => .ok (some row.data)

/-- `listInvoices`: by_stripe_customer_id index scan. -/
def listInvoices (s : Store) (stripeCustomerId : String) : List Invoice :=
  (s.invoices.filter (invoiceMatchesCustomer stripeCustomerId)).map Row.data

/-- `listInvoicesByOrgId`: by_org_id index scan. -/
def listInvoicesByOrgId (s : Store) (orgId : String) : List Invoice :=
  (s.invoices.filter (invoiceMatchesOrg orgId)).map Row.data

/-- `listInvoicesByUserId`: by_user_id index scan. -/
def listInvoicesByUserId (s : Store) (userId : String) : List Invoice :=
  (s.invoices.filter (invoiceMatchesUser userId)).map Row.data

/-- `getPrice`: unique lookup on by_stripe_price_id. -/
def getPrice (s : Store) (stripePriceId : String) :
    Except String (Option Price) :=
  match uniqueQ (s.prices.filter (priceMatches stripePriceId)) with
  | .error e => .error e
  | .ok none => .ok none
  | .ok (some row) => .ok (some row.data)

/-- `listPrices`: full scan, system fields stripped. -/
def listPrices (s : Store) : List Price :=
  s.prices.map Row.data

/-- `listActivePrices`: by_active index scan with `active = true`. -/
def listActivePrices (s : Store) : List Price :=
  (s.prices.filter (fun r => r.data.active == true)).map Row.data

/-- `getPriceByLookupKey`: unique lookup on by_lookup_key. -/
def getPriceByLookupKey (s : Store) (lookupKey : String) :
    Except String (Option Price) :=
  match uniqueQ (s.prices.filter (priceMatchesLookup lookupKey)) with
  | .error e => .error e
  | .ok none => .ok none
  | .ok (some row) => .ok (some row.data)

/-- `getCustomer`: unique lookup on by_stripe_customer_id. -/
def getCustomer (s : Store) (stripeCustomerId : String) :
    Except String (Option Customer) :=
  match uniqueQ (s.customers.filter (custMatches stripeCustomerId)) with
  | .error e => .error e
  | .ok none => .ok none
  | .ok (some row) => .ok (some row.data)

/-- `listSubscriptions`: by_stripe_customer_id index scan. -/
def listSubscriptions (s : Store) (stripeCustomerId : String) :
    List Subscription :=
  (s.subscriptions.filter (subMatchesCustomer stripeCustomerId)).map Row.data

/-- `getSubscriptionByOrgId`: by_org_id index scan taking `.first()` — the
first matching row or null. -/
def getSubscriptionByOrgId (s : Store) (orgId : String) : Option Subscription :=
  match (s.subscriptions.filter (subMatchesOrg orgId)).head? with
  | none => none
  | some row => some row.data

/-- `listSubscriptionsByUserId`: by_user_id index scan. -/
def listSubscriptionsByUserId (s : Store) (userId : String) :
    List Subscription :=
  (s.subscriptions.filter (subMatchesUser userId)).map Row.data

/-- `getPayment`: unique lookup on by_stripe_payment_intent_id. -/
def getPayment (s : Store) (stripePaymentIntentId : String) :
    Except String (Option Payment) :=
  match uniqueQ (s.payments.filter (paymentMatches stripePaymentIntentId)) with
  | .error e => .error e
  | .ok none => .ok none
  | .ok (some row) => .ok (some row.data)

/-- `listPayments`: by_stripe_customer_id index scan. -/
def listPayments (s : Store) (stripeCustomerId : String) : List Payment :=
  (s.payments.filter (paymentMatchesCustomer stripeCustomerId)).map Row.data

/-- `listPaymentsByUserId`: by_user_id index scan. -/
def listPaymentsByUserId (s : Store) (userId : String) : List Payment :=
  (s.payments.filter (paymentMatchesUser userId)).map Row.data

/-- `listPaymentsByOrgId`: by_org_id index scan. -/
def listPaymentsByOrgId (s : Store) (orgId : String) : List Payment :=
  (s.payments.filter (paymentMatchesOrg orgId)).map Row.data

/-! # Public mutations (src/src/component/public.ts)

A Convex mutation is transactional: a thrown error rolls back every write.
We model each mutation as a function from the store and the arguments to
`Except String (Store × result)`; on `.error` the caller keeps the old
store (the `...Final` helpers below make that reading explicit).
`db.patch` with a field explicitly set to `undefined` removes the field,
so an omitted optional argument (modelled `none`) clears the stored field. -/

structure CreateOrUpdateCustomerArgs where
  stripeCustomerId : String
  email : Option String
  name : Option String
  metadata : Option Metadata
deriving DecidableEq

/-- The patch performed by `createOrUpdateCustomer` on the existing row:
`ctx.db.patch(existing._id, \x7b email, name, metadata \x7d)`. -/
def patchCustomer (a : CreateOrUpdateCustomerArgs) (targetId : Nat)
    (r : Row Customer) : Row Customer :=
  if r.sysId == targetId then
    { r with data := { r.data with
        email := a.email, name := a.name, metadata := a.metadata } }
  else r

/-- The row built by `ctx.db.insert("customers", ...)`: document data from
the arguments, system fields assigned by the storage layer. -/
def newCustomerRow (a : CreateOrUpdateCustomerArgs) (i t : Nat) : Row Customer :=
  { sysId := i, sysCreationTime := t,
    data := { stripeCustomerId := a.stripeCustomerId, email := a.email,
              name := a.name, metadata := a.metadata } }

/-- The store after the insert branch of `createOrUpdateCustomer`. -/
def insertCustomerStore (s : Store) (a : CreateOrUpdateCustomerArgs)
    (i t : Nat) : Store :=
  { s with customers := s.customers ++ [newCustomerRow a i t] }

/-- The store after the patch branch of `createOrUpdateCustomer`. -/
def patchCustomerStore (s : Store) (a : CreateOrUpdateCustomerArgs)
    (tid : Nat) : Store :=
  { s with customers := s.customers.map (patchCustomer a tid) }

/-- `createOrUpdateCustomer`: unique lookup on by_stripe_customer_id; patch
the existing row, or insert a fresh row; returns the stripeCustomerId.
`freshId` and `freshTime` stand for the system fields the storage layer
assigns to a newly inserted document. -/
def createOrUpdateCustomer (s : Store) (a : CreateOrUpdateCustomerArgs)
    (freshId freshTime : Nat) : Except String (Store × String) :=
  match uniqueQ (s.customers.filter (custMatches a.stripeCustomerId)) with
  | .error e => .error e
  | .ok (some existing) =>
      .ok (patchCustomerStore s a existing.sysId, a.stripeCustomerId)
  | .ok none =>
      .ok (insertCustomerStore s a freshId freshTime, a.stripeCustomerId)

/-- The store the caller observes after `createOrUpdateCustomer`: the new
store on success, the unchanged store when the transaction aborted. -/
def custFinal (s : Store) (r : Except String (Store × String)) : Store :=
  match r with
  | .ok (s', _) => s'
  | .error _ => s

structure UpdateSubscriptionMetadataArgs where
  stripeSubscriptionId : String
  metadata : Metadata
  orgId : Option String
  userId : Option String
deriving DecidableEq

/-- The patch performed by `updateSubscriptionMetadata`:
`ctx.db.patch(subscription._id, \x7b metadata, orgId, userId \x7d)` — an omitted
`orgId`/`userId` argument is an explicit `undefined` in the patch object,
which removes the stored field. -/
def patchSubscriptionMeta (a : UpdateSubscriptionMetadataArgs) (targetId : Nat)
    (r : Row Subscription) : Row Subscription :=
  if r.sysId == targetId then
    { r with data := { r.data with
        metadata := some a.metadata, orgId := a.orgId, userId := a.userId } }
  else r

/-- `updateSubscriptionMetadata`: unique lookup on by_stripe_subscription_id;
throws when the subscription is unknown locally, otherwise patches
metadata/orgId/userId and returns null. -/
def updateSubscriptionMetadata (s : Store) (a : UpdateSubscriptionMetadataArgs) :
    Except String (Store × ConvexNull) :=
  match uniqueQ (s.subscriptions.filter (subMatches a.stripeSubscriptionId)) with
  | .error e => .error e
  | .ok none =>
      .error ("Subscription " ++ a.stripeSubscriptionId ++ " not found in database")
  | .ok (some row) =>
      .ok ({ s with subscriptions :=
              s.subscriptions.map (patchSubscriptionMeta a row.sysId) },
           ConvexNull.null)

/-- The store the caller observes after `updateSubscriptionMetadata`. -/
def subMetaFinal (s : Store) (r : Except String (Store × ConvexNull)) : Store :=
  match r with
  | .ok (s', _) => s'
  | .error _ => s

/-! # The subscription-quantity action (src/src/component/public.ts) -/

structure RemoteSubscriptionItem where
  id : String
deriving DecidableEq

/-- The part of the remote subscription object the action reads:
`subscription.items.data`. -/
structure RemoteSubscription where
  items : List RemoteSubscriptionItem
deriving DecidableEq

/-- The external world the action interacts with: the STRIPE_SECRET_KEY
environment variable and the two remote Stripe calls, each of which may
fail. -/
structure StripeEnv where
  secretKey : Option String
  retrieveSubscription : String → Except String RemoteSubscription
  updateSubscriptionItem : String → Int → Except String Unit

/-- The observable steps of one run of `updateSubscriptionQuantity`, in
order. -/
inductive QtyStep
  | remoteRetrieve
  | remoteUpdate
  | localWrite
deriving DecidableEq

/-- Modelled from the spec: `api.private.updateSubscriptionQuantityInternal`
(src/component/private.ts is not among the provided sources). Per the spec,
upon remote success the new seat quantity is written to the local
subscription record. -/
def updateSubscriptionQuantityInternal (s : Store) (sid : String) (q : Int) :
    Store :=
  { s with subscriptions := s.subscriptions.map (fun r =>
      if subMatches sid r then { r with data := { r.data with quantity := some q } }
      else r) }

/-- `updateSubscriptionQuantity`: check the environment key, retrieve the
remote subscription, require an item, update the remote item quantity, and
only then run the local mutation. The first component is the trace of steps
that executed, in order. -/
def updateSubscriptionQuantity (env : StripeEnv) (s : Store) (sid : String)
    (q : Int) : List QtyStep × Except String (Store × ConvexNull) :=
  match env.secretKey with
  | none =>
      ([], .error "STRIPE_SECRET_KEY must be provided as an environment variable")
  | some _ =>
    match env.retrieveSubscription sid with
    | .error e => ([QtyStep.remoteRetrieve], .error e)
    | .ok sub =>
      match sub.items with
      | [] => ([QtyStep.remoteRetrieve], .error "Subscription has no items")
      | item :: _ =>
        match env.updateSubscriptionItem item.id q with
        | .error e => ([QtyStep.remoteRetrieve, QtyStep.remoteUpdate], .error e)
        | .ok _ =>
            ([QtyStep.remoteRetrieve, QtyStep.remoteUpdate, QtyStep.localWrite],
             .ok (updateSubscriptionQuantityInternal s sid q, ConvexNull.null))

/-- The store the caller observes after `updateSubscriptionQuantity`. -/
def qtyFinal (s : Store) (r : List QtyStep × Except String (Store × ConvexNull)) :
    Store :=
  match r.2 with
  | .ok (s', _) => s'
  | .error _ => s

/-! # Spec-modelled webhook and client pieces -/

/-- Modelled from the spec: the webhook sync handler for `product.deleted`
(the component webhook merge code is not among the provided sources). The
spec says the event sets `active := false` on the stored product row — a
soft delete — rather than removing the row. -/
def applyProductDeleted (s : Store) (pid : String) : Store :=
  { s with products := s.products.map (fun r =>
      if productMatches pid r then { r with data := { r.data with active := false } }
      else r) }

structure CheckoutSessionArgs where
  priceId : String
  mode : String
  successUrl : String
  cancelUrl : String
  allowPromotionCodes : Option Bool
  discounts : Option (List String)
deriving DecidableEq

/-- Modelled from the spec and src/src/client/index.test.ts: the client
`createCheckoutSession` (src/client/index.ts is not among the provided
sources). Requesting both promotion-code allowance and an explicit discount
list fails synchronously — before the remote checkout-session call and
before any local write; otherwise the remote call proceeds. The first
component lists the remote calls performed, the third is the store after
the call. -/
def createCheckoutSession (a : CheckoutSessionArgs) (s : Store) :
    List String × Except String Unit × Store :=
  if a.allowPromotionCodes == some true && a.discounts.isSome then
    ([], .error "Cannot use both allowPromotionCodes and discounts", s)
  else
    (["stripe.checkout.sessions.create"], .ok (), s)

/-! # Concrete instances, used to evaluate the definitions -/

/-- An empty store. -/
def emptyStore : Store :=
  { products := [], prices := [], customers := [], subscriptions := [],
    payments := [], invoices := [] }

def prod1 : Product :=
  { stripeProductId := "prod_1", name := "Pro Plan", description := none,
    active := true, type := none, defaultPriceId := none, metadata := none,
    images := none }

def price1 : Price :=
  { stripePriceId := "price_1", stripeProductId := "prod_1", active := true,
    currency := "usd", type := "recurring", unitAmount := some 1000,
    description := none, lookupKey := none, recurringInterval := some "month",
    recurringIntervalCount := some 1, trialPeriodDays := none,
    usageType := none, billingScheme := none, tiersMode := none,
    tiers := none, metadata := none }

def price2 : Price :=
  { price1 with stripePriceId := "price_2", active := false }

def cust1 : Customer :=
  { stripeCustomerId := "cus_1", email := some "ada@example.com",
    name := some "Ada", metadata := none }

def sub1 : Subscription :=
  { stripeSubscriptionId := "sub_1", stripeCustomerId := "cus_1",
    status := "active", currentPeriodEnd := 1700000000,
    cancelAtPeriodEnd := false, cancelAt := none, quantity := some 1,
    priceId := "price_1", metadata := none, orgId := some "org_1",
    userId := some "user_1" }

def inv1 : Invoice :=
  { stripeInvoiceId := "in_1", stripeCustomerId := "cus_1",
    stripeSubscriptionId := some "sub_1", status := "paid",
    amountDue := 1000, amountPaid := 1000, created := 1,
    orgId := some "org_1", userId := some "user_1" }

/-- A small populated store. -/
def store1 : Store :=
  { products := [{ sysId := 1, sysCreationTime := 10, data := prod1 }],
    prices := [{ sysId := 2, sysCreationTime := 11, data := price1 },
               { sysId := 3, sysCreationTime := 12, data := price2 }],
    customers := [{ sysId := 4, sysCreationTime := 13, data := cust1 }],
    subscriptions := [{ sysId := 5, sysCreationTime := 14, data := sub1 }],
    payments := [],
    invoices := [{ sysId := 6, sysCreationTime := 15, data := inv1 }] }

/-- An environment with no STRIPE_SECRET_KEY set. -/
def envNoKey : StripeEnv :=
  { secretKey := none,
    retrieveSubscription := fun _ => .error "unreachable",
    updateSubscriptionItem := fun _ _ => .error "unreachable" }

/-- An environment where every remote call succeeds. -/
def envOk : StripeEnv :=
  { secretKey := some "sk_test_123",
    retrieveSubscription := fun _ => .ok { items := [{ id := "si_1" }] },
    updateSubscriptionItem := fun _ _ => .ok () }

def checkoutArgs1 : CheckoutSessionArgs :=
  { priceId := "price_123", mode := "payment",
    successUrl := "https://example.com/success",
    cancelUrl := "https://example.com/cancel",
    allowPromotionCodes := some true, discounts := some ["coupon_123"] }

def custArgs1 : CreateOrUpdateCustomerArgs :=
  { stripeCustomerId := "cus_1", email := some "new@example.com",
    name := none, metadata := some [("tier", "gold")] }

def custArgs2 : CreateOrUpdateCustomerArgs :=
  { stripeCustomerId := "cus_2", email := none, name := some "Grace",
    metadata := none }

def subMetaArgs1 : UpdateSubscriptionMetadataArgs :=
  { stripeSubscriptionId := "sub_1", metadata := [("seats", "5")],
    orgId := some "org_2", userId := none }

def subMetaArgsMissing : UpdateSubscriptionMetadataArgs :=
  { stripeSubscriptionId := "sub_404", metadata := [], orgId := none,
    userId := none }

/-! # Shared helper lemmas -/

/-- Filtering a mapped list when the map preserves the predicate. -/
theorem filter_map_pred {α β : Type} (f : α → β) (p : β → Bool) (q : α → Bool)
    (h : ∀ x, p (f x) = q x) :
    ∀ l : List α, (l.map f).filter p = (l.filter q).map f := by
  intro l
  induction l with
  | nil => rfl
  | cons a t ih =>
    cases hqa : q a <;> simp [List.filter_cons, h a, hqa, ih]

/-- A map that fixes every member of a list is the identity on it. -/
theorem map_eq_self_of_mem {α : Type} (f : α → α) :
    ∀ l : List α, (∀ x ∈ l, f x = x) → l.map f = l := by
  intro l
  induction l with
  | nil => intro _; rfl
  | cons a t ih =>
    intro h
    simp only [List.map_cons]
    rw [h a (List.mem_cons_self a t), ih (fun x hx => h x (List.mem_cons_of_mem a hx))]

/-- `patchCustomer` never changes the stripeCustomerId, so it preserves the
index predicate. -/
theorem patchCustomer_matches (a : CreateOrUpdateCustomerArgs) (tid : Nat)
    (c : String) (r : Row Customer) :
    custMatches c (patchCustomer a tid r) = custMatches c r := by
  unfold patchCustomer custMatches
  split <;> rfl

/-- `patchSubscriptionMeta` never changes the stripeSubscriptionId, so it
preserves the index predicate. -/
theorem patchSubscriptionMeta_matches (a : UpdateSubscriptionMetadataArgs)
    (tid : Nat) (c : String) (r : Row Subscription) :
    subMatches c (patchSubscriptionMeta a tid r) = subMatches c r := by
  unfold patchSubscriptionMeta subMatches
  split <;> rfl

/-- The soft-delete map preserves the product index predicate. -/
theorem productDeleted_step_matches (pid c : String) (r : Row Product) :
    productMatches c
      (if productMatches pid r then { r with data := { r.data with active := false } }
       else r) = productMatches c r := by
  split <;> rfl

/-- `patchCustomer` keeps the system id. -/
theorem patchCustomer_sysId (a : CreateOrUpdateCustomerArgs) (tid : Nat)
    (r : Row Customer) : (patchCustomer a tid r).sysId = r.sysId := by
  unfold patchCustomer
  split <;> rfl

/-- `patchCustomer` leaves rows with a different system id unchanged. -/
theorem patchCustomer_not_target (a : CreateOrUpdateCustomerArgs) (tid : Nat)
    (r : Row Customer) (h : r.sysId ≠ tid) : patchCustomer a tid r = r := by
  unfold patchCustomer
  simp [h]

/-- `patchCustomer` is idempotent. -/
theorem patchCustomer_idem (a : CreateOrUpdateCustomerArgs) (tid : Nat)
    (r : Row Customer) :
    patchCustomer a tid (patchCustomer a tid r) = patchCustomer a tid r := by
  unfold patchCustomer
  by_cases h : r.sysId = tid <;> simp [h]

/-- `patchSubscriptionMeta` keeps the system id. -/
theorem patchSubscriptionMeta_sysId (a : UpdateSubscriptionMetadataArgs)
    (tid : Nat) (r : Row Subscription) :
    (patchSubscriptionMeta a tid r).sysId = r.sysId := by
  unfold patchSubscriptionMeta
  split <;> rfl

/-- `patchSubscriptionMeta` leaves rows with a different system id
unchanged. -/
theorem patchSubscriptionMeta_not_target (a : UpdateSubscriptionMetadataArgs)
    (tid : Nat) (r : Row Subscription) (h : r.sysId ≠ tid) :
    patchSubscriptionMeta a tid r = r := by
  unfold patchSubscriptionMeta
  simp [h]

/-- The freshly inserted customer row matches its own customer id. -/
theorem newCustomerRow_matches (a : CreateOrUpdateCustomerArgs) (i t : Nat) :
    custMatches a.stripeCustomerId (newCustomerRow a i t) = true := by
  simp [custMatches, newCustomerRow]

/-- Patching the freshly inserted row with the same arguments changes
nothing. -/
theorem patchCustomer_newRow (a : CreateOrUpdateCustomerArgs) (i t : Nat) :
    patchCustomer a i (newCustomerRow a i t) = newCustomerRow a i t := by
  simp [patchCustomer, newCustomerRow]

/-- A run of `createOrUpdateCustomer` on a store whose unique match is
already fixed by the patch succeeds and returns the store unchanged. -/
theorem createOrUpdateCustomer_fixed (s1 : Store)
    (a : CreateOrUpdateCustomerArgs) (row : Row Customer)
    (hrow : s1.customers.filter (custMatches a.stripeCustomerId) = [row])
    (hfix : s1.customers.map (patchCustomer a row.sysId) = s1.customers)
    (i2 t2 : Nat) :
    createOrUpdateCustomer s1 a i2 t2 = .ok (s1, a.stripeCustomerId) := by
  simp [createOrUpdateCustomer, hrow, uniqueQ, patchCustomerStore, hfix]

/-- Any member of a filtered list that became a singleton is that singleton,
and it satisfies the predicate and belongs to the original list. -/
theorem filter_eq_singleton_mem {α : Type} (p : α → Bool) (l : List α) (a : α)
    (h : l.filter p = [a]) :
    a ∈ l ∧ p a = true ∧ ∀ x ∈ l, p x = true → x = a := by
  have ha : a ∈ l.filter p := by rw [h]; exact List.mem_singleton_self a
  rw [List.mem_filter] at ha
  refine ⟨ha.1, ha.2, ?_⟩
  intro x hx hpx
  have : x ∈ l.filter p := List.mem_filter.mpr ⟨hx, hpx⟩
  rw [h] at this
  exact List.mem_singleton.mp this

/-- A filter is empty exactly when no member satisfies the predicate. -/
theorem filter_eq_nil_iff_members {α : Type} (p : α → Bool) (l : List α) :
    l.filter p = [] ↔ ∀ x ∈ l, p x = false := by
  constructor
  · intro h x hx
    by_contra hc
    have hpx : p x = true := by
      cases hpe : p x with
      | false => exact absurd hpe hc
      | true => rfl
    have : x ∈ l.filter p := List.mem_filter.mpr ⟨hx, hpx⟩
    rw [h] at this
    exact absurd this (List.not_mem_nil x)
  · intro h
    cases hf : l.filter p with
    | nil => rfl
    | cons b t =>
      have hb : b ∈ l.filter p := by rw [hf]; exact List.mem_cons_self b t
      rw [List.mem_filter] at hb
      have := h b hb.1
      rw [hb.2] at this
      exact absurd this (by simp)

/-- The head of a list, when present, is a member. -/
theorem mem_of_head_some {α : Type} (l : List α) (a : α)
    (h : l.head? = some a) : a ∈ l := by
  cases l with
  | nil => cases h
  | cons b t =>
    simp only [List.head?] at h
    injection h with h2
    rw [← h2]
    exact List.mem_cons_self b t

/-- `patchCustomer` on the target row overwrites exactly the mutable
fields email, name and metadata. -/
theorem patchCustomer_target (a : CreateOrUpdateCustomerArgs) (tid : Nat)
    (r : Row Customer) (h : r.sysId = tid) :
    patchCustomer a tid r =
      { r with data := { r.data with
          email := a.email, name := a.name, metadata := a.metadata } } := by
  unfold patchCustomer
  simp [h]

/-- `patchSubscriptionMeta` on the target row overwrites exactly metadata,
orgId and userId. -/
theorem patchSubscriptionMeta_target (a : UpdateSubscriptionMetadataArgs)
    (tid : Nat) (r : Row Subscription) (h : r.sysId = tid) :
    patchSubscriptionMeta a tid r =
      { r with data := { r.data with
          metadata := some a.metadata, orgId := a.orgId,
          userId := a.userId } } := by
  unfold patchSubscriptionMeta
  simp [h]

/-- With distinct system ids, a row that does not satisfy a predicate whose
filter is the singleton `[row]` has a system id different from `row`. -/
theorem not_target_of_not_match {α : Type} (p : Row α → Bool)
    (l : List (Row α)) (row : Row α)
    (hone : l.filter p = [row]) (hnodup : (l.map Row.sysId).Nodup)
    (x : Row α) (hx : x ∈ l) (hpx : p x = false) : x.sysId ≠ row.sysId := by
  intro he
  obtain ⟨hrmem, hprow, -⟩ := filter_eq_singleton_mem p l row hone
  have hxr : x = row := List.inj_on_of_nodup_map hnodup hx hrmem he
  rw [hxr, hprow] at hpx
  cases hpx

/-! # Claim theorems -/

/-- C5: Requesting a checkout session with both promotion-code allowance
(allowPromotionCodes) and an explicit discount list fails synchronously —
the trace of remote calls is empty, the result is the error saying the two
options cannot be combined, and the store is unchanged (no local write). -/
theorem createCheckoutSession_mutually_exclusive (a : CheckoutSessionArgs)
    (s : Store) (hp : a.allowPromotionCodes = some true)
    (hd : a.discounts.isSome = true) :
    createCheckoutSession a s =
      ([], .error "Cannot use both allowPromotionCodes and discounts", s) := by
  simp [createCheckoutSession, hp, hd]

/-- Witness for C5 at the concrete arguments of the test in
src/src/client/index.test.ts. -/
theorem createCheckoutSession_mutually_exclusive_witness :
    createCheckoutSession checkoutArgs1 emptyStore =
      ([], .error "Cannot use both allowPromotionCodes and discounts",
       emptyStore) :=
  createCheckoutSession_mutually_exclusive checkoutArgs1 emptyStore rfl rfl

/-- C8: Listing by active flag agrees with filtering the full listing:
`listActiveProducts` returns exactly the records of `listProducts` whose
active flag is true, and `listActivePricesByProduct pid` returns exactly
the records of `listPricesByProduct pid` whose active flag is true — here
even as equal lists, order included. -/
theorem active_listings_filter_full (s : Store) (pid : String) :
    listActiveProducts s = (listProducts s).filter (fun p => p.active) ∧
    listActivePricesByProduct s pid =
      (listPricesByProduct s pid).filter (fun p => p.active) := by
  constructor
  · unfold listActiveProducts listProducts
    exact (filter_map_pred Row.data (fun p => p.active)
      (fun r => r.data.active == true) (fun x => by simp) s.products).symm
  · unfold listActivePricesByProduct listPricesByProduct
    exact (filter_map_pred Row.data (fun p => p.active)
      (fun r => r.data.active) (fun x => rfl)
      (s.prices.filter (priceMatchesProduct pid))).symm

/-- C1: `updateSubscriptionQuantity` instructs the remote provider first and
performs the local quantity write only after the remote update succeeded:
when a local write appears in the trace, the trace is exactly
remote retrieve, then remote update, then the local write, and the result
is the locally updated store. Every failure before the local write —
missing STRIPE_SECRET_KEY, a failing remote retrieve, a subscription with
no items, or a failing remote item update — makes the action throw with no
local write in the trace and the local state unchanged. -/
theorem updateSubscriptionQuantity_remote_before_local (env : StripeEnv)
    (s : Store) (sid : String) (q : Int) :
    (QtyStep.localWrite ∈ (updateSubscriptionQuantity env s sid q).1 →
       (updateSubscriptionQuantity env s sid q).1 =
         [QtyStep.remoteRetrieve, QtyStep.remoteUpdate, QtyStep.localWrite] ∧
       (updateSubscriptionQuantity env s sid q).2 =
         .ok (updateSubscriptionQuantityInternal s sid q, ConvexNull.null)) ∧
    (env.secretKey = none →
       updateSubscriptionQuantity env s sid q =
         ([], .error "STRIPE_SECRET_KEY must be provided as an environment variable") ∧
       qtyFinal s (updateSubscriptionQuantity env s sid q) = s) ∧
    (∀ k e, env.secretKey = some k → env.retrieveSubscription sid = .error e →
       updateSubscriptionQuantity env s sid q =
         ([QtyStep.remoteRetrieve], .error e) ∧
       qtyFinal s (updateSubscriptionQuantity env s sid q) = s) ∧
    (∀ k sub, env.secretKey = some k →
       env.retrieveSubscription sid = .ok sub → sub.items = [] →
       updateSubscriptionQuantity env s sid q =
         ([QtyStep.remoteRetrieve], .error "Subscription has no items") ∧
       qtyFinal s (updateSubscriptionQuantity env s sid q) = s) ∧
    (∀ k sub item rest e, env.secretKey = some k →
       env.retrieveSubscription sid = .ok sub → sub.items = item :: rest →
       env.updateSubscriptionItem item.id q = .error e →
       updateSubscriptionQuantity env s sid q =
         ([QtyStep.remoteRetrieve, QtyStep.remoteUpdate], .error e) ∧
       qtyFinal s (updateSubscriptionQuantity env s sid q) = s) := by
  refine ⟨?_, ?_, ?_, ?_, ?_⟩
  · intro hmem
    cases hk : env.secretKey with
    | none => simp [updateSubscriptionQuantity, hk] at hmem
    | some k =>
      cases hr : env.retrieveSubscription sid with
      | error e => simp [updateSubscriptionQuantity, hk, hr] at hmem
      | ok sub =>
        cases hi : sub.items with
        | nil => simp [updateSubscriptionQuantity, hk, hr, hi] at hmem
        | cons item rest =>
          cases hu : env.updateSubscriptionItem item.id q with
          | error e => simp [updateSubscriptionQuantity, hk, hr, hi, hu] at hmem
          | ok u =>
            exact ⟨by simp [updateSubscriptionQuantity, hk, hr, hi, hu],
                   by simp [updateSubscriptionQuantity, hk, hr, hi, hu]⟩
  · intro hk
    exact ⟨by simp [updateSubscriptionQuantity, hk],
           by simp [qtyFinal, updateSubscriptionQuantity, hk]⟩
  · intro k e hk hr
    exact ⟨by simp [updateSubscriptionQuantity, hk, hr],
           by simp [qtyFinal, updateSubscriptionQuantity, hk, hr]⟩
  · intro k sub hk hr hi
    exact ⟨by simp [updateSubscriptionQuantity, hk, hr, hi],
           by simp [qtyFinal, updateSubscriptionQuantity, hk, hr, hi]⟩
  · intro k sub item rest e hk hr hi hu
    exact ⟨by simp [updateSubscriptionQuantity, hk, hr, hi, hu],
           by simp [qtyFinal, updateSubscriptionQuantity, hk, hr, hi, hu]⟩

/-- Witness for C1: with no STRIPE_SECRET_KEY the action throws and the
store is unchanged; with an all-succeeding environment the local write
happens after both remote steps. -/
theorem updateSubscriptionQuantity_remote_before_local_witness :
    (updateSubscriptionQuantity envNoKey store1 "sub_1" 3 =
       ([], .error "STRIPE_SECRET_KEY must be provided as an environment variable") ∧
     qtyFinal store1 (updateSubscriptionQuantity envNoKey store1 "sub_1" 3) =
       store1) ∧
    (updateSubscriptionQuantity envOk store1 "sub_1" 3).1 =
      [QtyStep.remoteRetrieve, QtyStep.remoteUpdate, QtyStep.localWrite] ∧
    (updateSubscriptionQuantity envOk store1 "sub_1" 3).2 =
      .ok (updateSubscriptionQuantityInternal store1 "sub_1" 3,
           ConvexNull.null) :=
  ⟨(updateSubscriptionQuantity_remote_before_local envNoKey store1 "sub_1" 3).2.1
     rfl,
   (updateSubscriptionQuantity_remote_before_local envOk store1 "sub_1" 3).1
     (by decide)⟩

/-- C2: `updateSubscriptionMetadata` with a stripeSubscriptionId for which
no local subscription exists throws the not-found error and leaves the
store unchanged; when exactly one matching subscription exists the mutation
succeeds and returns null. -/
theorem updateSubscriptionMetadata_missing_throws (s : Store)
    (a : UpdateSubscriptionMetadataArgs) :
    (s.subscriptions.filter (subMatches a.stripeSubscriptionId) = [] →
       updateSubscriptionMetadata s a =
         .error ("Subscription " ++ a.stripeSubscriptionId ++
           " not found in database") ∧
       subMetaFinal s (updateSubscriptionMetadata s a) = s) ∧
    (∀ row, s.subscriptions.filter (subMatches a.stripeSubscriptionId) = [row] →
       ∃ s', updateSubscriptionMetadata s a = .ok (s', ConvexNull.null)) := by
  constructor
  · intro h
    exact ⟨by simp [updateSubscriptionMetadata, h, uniqueQ],
           by simp [subMetaFinal, updateSubscriptionMetadata, h, uniqueQ]⟩
  · intro row h
    exact ⟨{ s with subscriptions :=
               s.subscriptions.map (patchSubscriptionMeta a row.sysId) },
           by simp [updateSubscriptionMetadata, h, uniqueQ]⟩

/-- Witness for C2: on the populated store, the unknown id sub_404 throws
and changes nothing, while the known id sub_1 succeeds returning null. -/
theorem updateSubscriptionMetadata_missing_throws_witness :
    (updateSubscriptionMetadata store1 subMetaArgsMissing =
       .error ("Subscription " ++ subMetaArgsMissing.stripeSubscriptionId ++
         " not found in database") ∧
     subMetaFinal store1 (updateSubscriptionMetadata store1 subMetaArgsMissing) =
       store1) ∧
    ∃ s', updateSubscriptionMetadata store1 subMetaArgs1 =
      .ok (s', ConvexNull.null) :=
  ⟨(updateSubscriptionMetadata_missing_throws store1 subMetaArgsMissing).1
     (by decide),
   (updateSubscriptionMetadata_missing_throws store1 subMetaArgs1).2
     { sysId := 5, sysCreationTime := 14, data := sub1 } (by decide)⟩

/-- C6: a `product.deleted` event soft-deletes: afterwards `getProduct`
still returns the record, with active = false; the record still appears in
`listProducts`; the full listing keeps its length; and `listProducts`
returns every stored product row regardless of its active flag. -/
theorem productDeleted_soft_delete (s : Store) (pid : String)
    (row : Row Product)
    (hone : s.products.filter (productMatches pid) = [row]) :
    getProduct (applyProductDeleted s pid) pid =
      .ok (some { row.data with active := false }) ∧
    { row.data with active := false } ∈ listProducts (applyProductDeleted s pid) ∧
    (listProducts (applyProductDeleted s pid)).length = (listProducts s).length ∧
    (∀ (t : Store) (r : Row Product), r ∈ t.products → r.data ∈ listProducts t) := by
  obtain ⟨hmem, hmatch, -⟩ := filter_eq_singleton_mem _ _ _ hone
  have hfilter : (applyProductDeleted s pid).products.filter (productMatches pid)
      = [{ row with data := { row.data with active := false } }] := by
    show ((s.products.map fun r =>
        if productMatches pid r then { r with data := { r.data with active := false } }
        else r).filter (productMatches pid)) = _
    rw [filter_map_pred _ (productMatches pid) (productMatches pid)
        (productDeleted_step_matches pid pid), hone]
    simp [hmatch]
  refine ⟨?_, ?_, ?_, ?_⟩
  · simp [getProduct, hfilter, uniqueQ]
  · have hm : ({ row with data := { row.data with active := false } } : Row Product)
        ∈ (applyProductDeleted s pid).products := by
      have := List.mem_map_of_mem (fun r =>
        if productMatches pid r then { r with data := { r.data with active := false } }
        else r) hmem
      simpa [applyProductDeleted, hmatch] using this
    exact List.mem_map_of_mem Row.data hm
  · simp [listProducts, applyProductDeleted]
  · intro t r hr
    exact List.mem_map_of_mem Row.data hr

/-- Witness for C6 on the populated store: deleting prod_1 keeps the row,
with the active flag cleared. -/
theorem productDeleted_soft_delete_witness :
    getProduct (applyProductDeleted store1 "prod_1") "prod_1" =
      .ok (some { prod1 with active := false }) ∧
    ({ prod1 with active := false })
      ∈ listProducts (applyProductDeleted store1 "prod_1") := by
  have h := productDeleted_soft_delete store1 "prod_1"
    { sysId := 1, sysCreationTime := 10, data := prod1 } (by decide)
  exact ⟨h.1, h.2.1⟩

/-- C7: the query surface returns plain records: every record any of the
embedded queries returns — point lookups, the full listing, the active
listing, the secondary-index listings, the by-product listing and the
compound product-with-prices read — is exactly the `data` projection of a
stored row, i.e. the stored document with the storage-internal system
fields (`sysId` for `_id`, `sysCreationTime` for `_creationTime`) stripped
and all remaining fields verbatim. -/
theorem query_surface_plain_records (s : Store) :
    (∀ p ∈ listProducts s, ∃ r ∈ s.products, p = r.data) ∧
    (∀ p ∈ listActiveProducts s, ∃ r ∈ s.products, p = r.data) ∧
    (∀ pid, ∀ p ∈ listPricesByProduct s pid, ∃ r ∈ s.prices, p = r.data) ∧
    (∀ cid, ∀ i ∈ listInvoices s cid, ∃ r ∈ s.invoices, i = r.data) ∧
    (∀ oid, ∀ i ∈ listInvoicesByOrgId s oid, ∃ r ∈ s.invoices, i = r.data) ∧
    (∀ uid, ∀ i ∈ listInvoicesByUserId s uid, ∃ r ∈ s.invoices, i = r.data) ∧
    (∀ pid p, getProduct s pid = .ok (some p) → ∃ r ∈ s.products, p = r.data) ∧
    (∀ sid sub, getSubscription s sid = .ok (some sub) →
       ∃ r ∈ s.subscriptions, sub = r.data) ∧
    (∀ pid prod prs, getProductWithPrices s pid = .ok (some (prod, prs)) →
       (∃ r ∈ s.products, prod = r.data) ∧
       ∀ p ∈ prs, ∃ r ∈ s.prices, p = r.data) ∧
    (∀ p ∈ listPrices s, ∃ r ∈ s.prices, p = r.data) ∧
    (∀ p ∈ listActivePrices s, ∃ r ∈ s.prices, p = r.data) ∧
    (∀ cid, ∀ x ∈ listSubscriptions s cid, ∃ r ∈ s.subscriptions, x = r.data) ∧
    (∀ uid, ∀ x ∈ listSubscriptionsByUserId s uid,
       ∃ r ∈ s.subscriptions, x = r.data) ∧
    (∀ cid, ∀ x ∈ listPayments s cid, ∃ r ∈ s.payments, x = r.data) ∧
    (∀ uid, ∀ x ∈ listPaymentsByUserId s uid, ∃ r ∈ s.payments, x = r.data) ∧
    (∀ oid, ∀ x ∈ listPaymentsByOrgId s oid, ∃ r ∈ s.payments, x = r.data) ∧
    (∀ pid p, getPrice s pid = .ok (some p) → ∃ r ∈ s.prices, p = r.data) ∧
    (∀ k p, getPriceByLookupKey s k = .ok (some p) →
       ∃ r ∈ s.prices, p = r.data) ∧
    (∀ cid c, getCustomer s cid = .ok (some c) →
       ∃ r ∈ s.customers, c = r.data) ∧
    (∀ pid p, getPayment s pid = .ok (some p) → ∃ r ∈ s.payments, p = r.data) ∧
    (∀ oid sub, getSubscriptionByOrgId s oid = some sub →
       ∃ r ∈ s.subscriptions, sub = r.data) ∧
    (∀ pid, ∀ p ∈ listActivePricesByProduct s pid,
       ∃ r ∈ s.prices, p = r.data) := by
  refine ⟨?_, ?_, ?_, ?_, ?_, ?_, ?_, ?_, ?_, ?_, ?_, ?_, ?_, ?_, ?_, ?_,
    ?_, ?_, ?_, ?_, ?_, ?_⟩
  · intro p hp
    obtain ⟨r, hr, rfl⟩ := List.mem_map.mp hp
    exact ⟨r, hr, rfl⟩
  · intro p hp
    obtain ⟨r, hr, rfl⟩ := List.mem_map.mp hp
    exact ⟨r, List.mem_of_mem_filter hr, rfl⟩
  · intro pid p hp
    obtain ⟨r, hr, rfl⟩ := List.mem_map.mp hp
    exact ⟨r, List.mem_of_mem_filter hr, rfl⟩
  · intro cid i hi
    obtain ⟨r, hr, rfl⟩ := List.mem_map.mp hi
    exact ⟨r, List.mem_of_mem_filter hr, rfl⟩
  · intro oid i hi
    obtain ⟨r, hr, rfl⟩ := List.mem_map.mp hi
    exact ⟨r, List.mem_of_mem_filter hr, rfl⟩
  · intro uid i hi
    obtain ⟨r, hr, rfl⟩ := List.mem_map.mp hi
    exact ⟨r, List.mem_of_mem_filter hr, rfl⟩
  · intro pid p hp
    unfold getProduct at hp
    cases hf : s.products.filter (productMatches pid) with
    | nil => rw [hf] at hp; simp [uniqueQ] at hp
    | cons r t =>
      cases t with
      | nil =>
        rw [hf] at hp
        simp only [uniqueQ] at hp
        obtain ⟨hmem, -, -⟩ := filter_eq_singleton_mem _ _ _ hf
        cases hp
        exact ⟨r, hmem, rfl⟩
      | cons r2 t2 => rw [hf] at hp; simp [uniqueQ] at hp
  · intro sid sub hp
    unfold getSubscription at hp
    cases hf : s.subscriptions.filter (subMatches sid) with
    | nil => rw [hf] at hp; simp [uniqueQ] at hp
    | cons r t =>
      cases t with
      | nil =>
        rw [hf] at hp
        simp only [uniqueQ] at hp
        obtain ⟨hmem, -, -⟩ := filter_eq_singleton_mem _ _ _ hf
        cases hp
        exact ⟨r, hmem, rfl⟩
      | cons r2 t2 => rw [hf] at hp; simp [uniqueQ] at hp
  · intro pid prod prs hp
    unfold getProductWithPrices at hp
    cases hf : s.products.filter (productMatches pid) with
    | nil => rw [hf] at hp; simp [uniqueQ] at hp
    | cons r t =>
      cases t with
      | nil =>
        rw [hf] at hp
        simp only [uniqueQ] at hp
        obtain ⟨hmem, -, -⟩ := filter_eq_singleton_mem _ _ _ hf
        cases hp
        constructor
        · exact ⟨r, hmem, rfl⟩
        · intro p hpp
          obtain ⟨rp, hrp, rfl⟩ := List.mem_map.mp hpp
          exact ⟨rp, List.mem_of_mem_filter hrp, rfl⟩
      | cons r2 t2 => rw [hf] at hp; simp [uniqueQ] at hp
  · intro p hp
    obtain ⟨r, hr, rfl⟩ := List.mem_map.mp hp
    exact ⟨r, hr, rfl⟩
  · intro p hp
    obtain ⟨r, hr, rfl⟩ := List.mem_map.mp hp
    exact ⟨r, List.mem_of_mem_filter hr, rfl⟩
  · intro cid x hx
    obtain ⟨r, hr, rfl⟩ := List.mem_map.mp hx
    exact ⟨r, List.mem_of_mem_filter hr, rfl⟩
  · intro uid x hx
    obtain ⟨r, hr, rfl⟩ := List.mem_map.mp hx
    exact ⟨r, List.mem_of_mem_filter hr, rfl⟩
  · intro cid x hx
    obtain ⟨r, hr, rfl⟩ := List.mem_map.mp hx
    exact ⟨r, List.mem_of_mem_filter hr, rfl⟩
  · intro uid x hx
    obtain ⟨r, hr, rfl⟩ := List.mem_map.mp hx
    exact ⟨r, List.mem_of_mem_filter hr, rfl⟩
  · intro oid x hx
    obtain ⟨r, hr, rfl⟩ := List.mem_map.mp hx
    exact ⟨r, List.mem_of_mem_filter hr, rfl⟩
  · intro pid p hp
    unfold getPrice at hp
    cases hf : s.prices.filter (priceMatches pid) with
    | nil => rw [hf] at hp; simp [uniqueQ] at hp
    | cons r t =>
      cases t with
      | nil =>
        rw [hf] at hp
        simp only [uniqueQ] at hp
        obtain ⟨hmem, -, -⟩ := filter_eq_singleton_mem _ _ _ hf
        cases hp
        exact ⟨r, hmem, rfl⟩
      | cons r2 t2 => rw [hf] at hp; simp [uniqueQ] at hp
  · intro k p hp
    unfold getPriceByLookupKey at hp
    cases hf : s.prices.filter (priceMatchesLookup k) with
    | nil => rw [hf] at hp; simp [uniqueQ] at hp
    | cons r t =>
      cases t with
      | nil =>
        rw [hf] at hp
        simp only [uniqueQ] at hp
        obtain ⟨hmem, -, -⟩ := filter_eq_singleton_mem _ _ _ hf
        cases hp
        exact ⟨r, hmem, rfl⟩
      | cons r2 t2 => rw [hf] at hp; simp [uniqueQ] at hp
  · intro cid c hp
    unfold getCustomer at hp
    cases hf : s.customers.filter (custMatches cid) with
    | nil => rw [hf] at hp; simp [uniqueQ] at hp
    | cons r t =>
      cases t with
      | nil =>
        rw [hf] at hp
        simp only [uniqueQ] at hp
        obtain ⟨hmem, -, -⟩ := filter_eq_singleton_mem _ _ _ hf
        cases hp
        exact ⟨r, hmem, rfl⟩
      | cons r2 t2 => rw [hf] at hp; simp [uniqueQ] at hp
  · intro pid p hp
    unfold getPayment at hp
    cases hf : s.payments.filter (paymentMatches pid) with
    | nil => rw [hf] at hp; simp [uniqueQ] at hp
    | cons r t =>
      cases t with
      | nil =>
        rw [hf] at hp
        simp only [uniqueQ] at hp
        obtain ⟨hmem, -, -⟩ := filter_eq_singleton_mem _ _ _ hf
        cases hp
        exact ⟨r, hmem, rfl⟩
      | cons r2 t2 => rw [hf] at hp; simp [uniqueQ] at hp
  · intro oid sub hp
    unfold getSubscriptionByOrgId at hp
    cases hl : (s.subscriptions.filter (subMatchesOrg oid)).head? with
    | none => rw [hl] at hp; cases hp
    | some r =>
      rw [hl] at hp
      cases hp
      exact ⟨r, List.mem_of_mem_filter (mem_of_head_some _ _ hl), rfl⟩
  · intro pid p hp
    obtain ⟨r, hr, rfl⟩ := List.mem_map.mp hp
    exact ⟨r, List.mem_of_mem_filter (List.mem_of_mem_filter hr), rfl⟩

/-- Witness for C7 on the populated store: the full listing and a point
lookup both return the stored document data. -/
theorem query_surface_plain_records_witness :
    (∃ r ∈ store1.products, prod1 = r.data) ∧
    (∃ r ∈ store1.subscriptions, sub1 = r.data) :=
  ⟨(query_surface_plain_records store1).1 prod1 (by decide),
   (query_surface_plain_records store1).2.2.2.2.2.2.2.1 "sub_1" sub1 rfl⟩

/-- C9: under the schema invariant that at most one product carries a given
stripeProductId, `getProductWithPrices` returns null exactly when no
product with the given id exists; otherwise it returns that product
together with exactly the prices whose stripeProductId equals the given id
— active or not, the very list `listPricesByProduct` returns — each with
system fields stripped. -/
theorem getProductWithPrices_characterization (s : Store) (pid : String)
    (hu : (s.products.filter (productMatches pid)).length ≤ 1) :
    (getProductWithPrices s pid = .ok none ↔
       ∀ r ∈ s.products, productMatches pid r = false) ∧
    (∀ prod prs, getProductWithPrices s pid = .ok (some (prod, prs)) →
       (∃ r ∈ s.products, r.data = prod ∧ productMatches pid r = true) ∧
       prs = listPricesByProduct s pid) := by
  cases hf : s.products.filter (productMatches pid) with
  | nil =>
    constructor
    · constructor
      · intro _
        exact (filter_eq_nil_iff_members _ _).mp hf
      · intro _
        simp [getProductWithPrices, hf, uniqueQ]
    · intro prod prs hp
      simp [getProductWithPrices, hf, uniqueQ] at hp
  | cons r t =>
    cases t with
    | nil =>
      obtain ⟨hmem, hmatch, -⟩ := filter_eq_singleton_mem _ _ _ hf
      constructor
      · constructor
        · intro h
          simp [getProductWithPrices, hf, uniqueQ] at h
        · intro hall
          have hc := hall r hmem
          rw [hmatch] at hc
          cases hc
      · intro prod prs hp
        simp only [getProductWithPrices, hf, uniqueQ] at hp
        rw [Except.ok.injEq, Option.some.injEq, Prod.mk.injEq] at hp
        obtain ⟨h1, h2⟩ := hp
        exact ⟨⟨r, hmem, h1, hmatch⟩, by rw [← h2]; rfl⟩
    | cons r2 t2 =>
      rw [hf] at hu
      simp at hu

/-- Witness for C9: on the populated store, prod_1 exists and comes back
with both of its prices (price_2 inactive included); prod_404 yields null. -/
theorem getProductWithPrices_characterization_witness :
    (∀ prod prs,
       getProductWithPrices store1 "prod_1" = .ok (some (prod, prs)) →
       (∃ r ∈ store1.products, r.data = prod ∧ productMatches "prod_1" r = true) ∧
       prs = listPricesByProduct store1 "prod_1") ∧
    (getProductWithPrices store1 "prod_404" = .ok none ↔
       ∀ r ∈ store1.products, productMatches "prod_404" r = false) :=
  ⟨(getProductWithPrices_characterization store1 "prod_1" (by decide)).2,
   (getProductWithPrices_characterization store1 "prod_404" (by decide)).1⟩

/-- C3: `createOrUpdateCustomer` is an idempotent upsert keyed by
stripeCustomerId: when no customer with the id exists a new record built
from the arguments is appended; when one exists its mutable fields (email,
name, metadata) are overwritten in place; the mutation returns the given
stripeCustomerId in both branches; and running the same call twice in a
row yields the same store state as running it once (for any fresh system
fields the storage layer picks the second time). `hfresh` is the storage
guarantee that a newly assigned document id is not already in use. -/
theorem createOrUpdateCustomer_upsert_idempotent (s : Store)
    (a : CreateOrUpdateCustomerArgs) (i1 t1 : Nat)
    (hfresh : i1 ∉ s.customers.map Row.sysId) :
    (s.customers.filter (custMatches a.stripeCustomerId) = [] →
       createOrUpdateCustomer s a i1 t1 =
         .ok (insertCustomerStore s a i1 t1, a.stripeCustomerId)) ∧
    (∀ row, s.customers.filter (custMatches a.stripeCustomerId) = [row] →
       createOrUpdateCustomer s a i1 t1 =
         .ok (patchCustomerStore s a row.sysId, a.stripeCustomerId)) ∧
    (∀ s1 ret, createOrUpdateCustomer s a i1 t1 = .ok (s1, ret) →
       ret = a.stripeCustomerId) ∧
    (∀ i2 t2,
       custFinal (custFinal s (createOrUpdateCustomer s a i1 t1))
         (createOrUpdateCustomer
           (custFinal s (createOrUpdateCustomer s a i1 t1)) a i2 t2) =
       custFinal s (createOrUpdateCustomer s a i1 t1)) := by
  have hnotid : ∀ x ∈ s.customers, x.sysId ≠ i1 := by
    intro x hx hxi
    exact hfresh (hxi ▸ List.mem_map_of_mem Row.sysId hx)
  refine ⟨?_, ?_, ?_, ?_⟩
  · intro h
    simp [createOrUpdateCustomer, h, uniqueQ]
  · intro row h
    simp [createOrUpdateCustomer, h, uniqueQ]
  · intro s1 ret h
    unfold createOrUpdateCustomer at h
    cases hq : uniqueQ (s.customers.filter (custMatches a.stripeCustomerId)) with
    | error e => rw [hq] at h; cases h
    | ok o =>
      rw [hq] at h
      cases o with
      | none => cases h; rfl
      | some row => cases h; rfl
  · intro i2 t2
    cases hf : s.customers.filter (custMatches a.stripeCustomerId) with
    | nil =>
      have h1 : createOrUpdateCustomer s a i1 t1 =
          .ok (insertCustomerStore s a i1 t1, a.stripeCustomerId) := by
        simp [createOrUpdateCustomer, hf, uniqueQ]
      rw [h1]
      simp only [custFinal]
      have hrow : (insertCustomerStore s a i1 t1).customers.filter
          (custMatches a.stripeCustomerId) = [newCustomerRow a i1 t1] := by
        simp only [insertCustomerStore]
        rw [List.filter_append, hf]
        simp [newCustomerRow_matches]
      have hfix : (insertCustomerStore s a i1 t1).customers.map
          (patchCustomer a i1) = (insertCustomerStore s a i1 t1).customers := by
        simp only [insertCustomerStore, List.map_append]
        rw [map_eq_self_of_mem _ s.customers
            (fun x hx => patchCustomer_not_target a i1 x (hnotid x hx))]
        simp [patchCustomer_newRow]
      rw [createOrUpdateCustomer_fixed _ a (newCustomerRow a i1 t1) hrow hfix
            i2 t2]
    | cons r t =>
      cases t with
      | nil =>
        have h1 : createOrUpdateCustomer s a i1 t1 =
            .ok (patchCustomerStore s a r.sysId, a.stripeCustomerId) := by
          simp [createOrUpdateCustomer, hf, uniqueQ]
        rw [h1]
        simp only [custFinal]
        have hrow : (patchCustomerStore s a r.sysId).customers.filter
            (custMatches a.stripeCustomerId) = [patchCustomer a r.sysId r] := by
          simp only [patchCustomerStore]
          rw [filter_map_pred (patchCustomer a r.sysId)
                (custMatches a.stripeCustomerId) (custMatches a.stripeCustomerId)
                (patchCustomer_matches a r.sysId a.stripeCustomerId), hf]
          simp
        have hfix : (patchCustomerStore s a r.sysId).customers.map
            (patchCustomer a (patchCustomer a r.sysId r).sysId) =
            (patchCustomerStore s a r.sysId).customers := by
          rw [patchCustomer_sysId]
          simp only [patchCustomerStore]
          rw [List.map_map]
          exact List.map_congr_left (fun x _ => patchCustomer_idem a r.sysId x)
        rw [createOrUpdateCustomer_fixed _ a (patchCustomer a r.sysId r) hrow
              hfix i2 t2]
      | cons r2 trest =>
        have h1 : createOrUpdateCustomer s a i1 t1 =
            .error "unique query matched more than one document" := by
          simp [createOrUpdateCustomer, hf, uniqueQ]
        have h2 : createOrUpdateCustomer s a i2 t2 =
            .error "unique query matched more than one document" := by
          simp [createOrUpdateCustomer, hf, uniqueQ]
        rw [h1]
        simp only [custFinal]
        rw [h2]

/-- Witness for C3: inserting the new customer cus_2 into the populated
store, overwriting the existing customer cus_1, and idempotence of the
overwrite. -/
theorem createOrUpdateCustomer_upsert_idempotent_witness :
    (createOrUpdateCustomer store1 custArgs2 100 200 =
       .ok (insertCustomerStore store1 custArgs2 100 200,
            custArgs2.stripeCustomerId)) ∧
    (createOrUpdateCustomer store1 custArgs1 100 200 =
       .ok (patchCustomerStore store1 custArgs1 4,
            custArgs1.stripeCustomerId)) ∧
    custFinal
      (custFinal store1 (createOrUpdateCustomer store1 custArgs1 100 200))
      (createOrUpdateCustomer
        (custFinal store1 (createOrUpdateCustomer store1 custArgs1 100 200))
        custArgs1 101 201) =
      custFinal store1 (createOrUpdateCustomer store1 custArgs1 100 200) :=
  ⟨(createOrUpdateCustomer_upsert_idempotent store1 custArgs2 100 200
      (by decide)).1 (by decide),
   (createOrUpdateCustomer_upsert_idempotent store1 custArgs1 100 200
      (by decide)).2.1 { sysId := 4, sysCreationTime := 13, data := cust1 }
      (by decide),
   (createOrUpdateCustomer_upsert_idempotent store1 custArgs1 100 200
      (by decide)).2.2.2 101 201⟩

/-- C10: `createOrUpdateCustomer` on an existing customer (the filter on
its id is a singleton; system ids are distinct) overwrites email, name and
metadata with exactly the supplied argument values — an argument omitted
from the call (modelled `none`) clears the stored field rather than
preserving its prior value — while the stripeCustomerId, the system
fields, and every non-matching row stay unchanged. -/
theorem createOrUpdateCustomer_overwrites_exactly (s : Store)
    (a : CreateOrUpdateCustomerArgs) (row : Row Customer) (i t : Nat)
    (hone : s.customers.filter (custMatches a.stripeCustomerId) = [row])
    (hnodup : (s.customers.map Row.sysId).Nodup) :
    ∃ s', createOrUpdateCustomer s a i t = .ok (s', a.stripeCustomerId) ∧
      s'.customers.length = s.customers.length ∧
      ∀ j (hj : j < s.customers.length) (hj' : j < s'.customers.length),
        ((s.customers.get ⟨j, hj⟩).data.stripeCustomerId ≠ a.stripeCustomerId →
           s'.customers.get ⟨j, hj'⟩ = s.customers.get ⟨j, hj⟩) ∧
        ((s.customers.get ⟨j, hj⟩).data.stripeCustomerId = a.stripeCustomerId →
           s'.customers.get ⟨j, hj'⟩ =
             { s.customers.get ⟨j, hj⟩ with
               data := { (s.customers.get ⟨j, hj⟩).data with
                         email := a.email, name := a.name,
                         metadata := a.metadata } }) := by
  refine ⟨patchCustomerStore s a row.sysId, ?_, ?_, ?_⟩
  · simp [createOrUpdateCustomer, hone, uniqueQ]
  · simp [patchCustomerStore]
  · intro j hj hj'
    have hget : (patchCustomerStore s a row.sysId).customers.get ⟨j, hj'⟩ =
        patchCustomer a row.sysId (s.customers.get ⟨j, hj⟩) := by
      simp [patchCustomerStore, List.get_eq_getElem, List.getElem_map]
    have hmem : s.customers.get ⟨j, hj⟩ ∈ s.customers :=
      s.customers.get_mem j hj
    constructor
    · intro hne
      rw [hget]
      apply patchCustomer_not_target
      apply not_target_of_not_match (custMatches a.stripeCustomerId)
        s.customers row hone hnodup _ hmem
      simp only [custMatches, beq_eq_false_iff_ne, ne_eq]
      exact hne
    · intro heq
      rw [hget]
      have hx : s.customers.get ⟨j, hj⟩ = row := by
        obtain ⟨-, -, huniq⟩ := filter_eq_singleton_mem _ _ _ hone
        exact huniq _ hmem (by simpa [custMatches] using heq)
      apply patchCustomer_target
      rw [hx]

/-- Witness for C10: overwriting the existing customer cus_1 succeeds
(custArgs1 omits name, clearing the stored name). -/
theorem createOrUpdateCustomer_overwrites_exactly_witness :
    ∃ s', createOrUpdateCustomer store1 custArgs1 100 200 =
      .ok (s', custArgs1.stripeCustomerId) := by
  obtain ⟨s', h1, -⟩ := createOrUpdateCustomer_overwrites_exactly store1
    custArgs1 { sysId := 4, sysCreationTime := 13, data := cust1 } 100 200
    (by decide) (by decide)
  exact ⟨s', h1⟩

/-- C4: for an existing subscription (singleton filter on its id; distinct
system ids), `updateSubscriptionMetadata` writes exactly the fields
metadata, orgId and userId with the supplied argument values — so an
existing orgId or userId is removed when the corresponding optional
argument is omitted (`none`) — and every other field of that subscription
(status, quantity, priceId, currentPeriodEnd, cancelAtPeriodEnd, cancelAt,
stripeCustomerId, stripeSubscriptionId, the system fields) and every other
record in the store (non-matching subscription rows and all other tables)
is left unchanged. -/
theorem updateSubscriptionMetadata_writes_exactly (s : Store)
    (a : UpdateSubscriptionMetadataArgs) (row : Row Subscription)
    (hone : s.subscriptions.filter (subMatches a.stripeSubscriptionId) = [row])
    (hnodup : (s.subscriptions.map Row.sysId).Nodup) :
    ∃ s', updateSubscriptionMetadata s a = .ok (s', ConvexNull.null) ∧
      s'.products = s.products ∧ s'.prices = s.prices ∧
      s'.customers = s.customers ∧ s'.payments = s.payments ∧
      s'.invoices = s.invoices ∧
      s'.subscriptions.length = s.subscriptions.length ∧
      ∀ j (hj : j < s.subscriptions.length)
        (hj' : j < s'.subscriptions.length),
        ((s.subscriptions.get ⟨j, hj⟩).data.stripeSubscriptionId ≠
            a.stripeSubscriptionId →
           s'.subscriptions.get ⟨j, hj'⟩ = s.subscriptions.get ⟨j, hj⟩) ∧
        ((s.subscriptions.get ⟨j, hj⟩).data.stripeSubscriptionId =
            a.stripeSubscriptionId →
           s'.subscriptions.get ⟨j, hj'⟩ =
             { s.subscriptions.get ⟨j, hj⟩ with
               data := { (s.subscriptions.get ⟨j, hj⟩).data with
                 metadata := some a.metadata, orgId := a.orgId,
                 userId := a.userId } }) := by
  refine ⟨{ s with subscriptions :=
      s.subscriptions.map (patchSubscriptionMeta a row.sysId) },
    ?_, rfl, rfl, rfl, rfl, rfl, ?_, ?_⟩
  · simp [updateSubscriptionMetadata, hone, uniqueQ]
  · simp
  · intro j hj hj'
    have hget : ((s.subscriptions.map
        (patchSubscriptionMeta a row.sysId)).get ⟨j, hj'⟩) =
        patchSubscriptionMeta a row.sysId (s.subscriptions.get ⟨j, hj⟩) := by
      simp [List.get_eq_getElem, List.getElem_map]
    have hmem : s.subscriptions.get ⟨j, hj⟩ ∈ s.subscriptions :=
      s.subscriptions.get_mem j hj
    constructor
    · intro hne
      rw [hget]
      apply patchSubscriptionMeta_not_target
      apply not_target_of_not_match (subMatches a.stripeSubscriptionId)
        s.subscriptions row hone hnodup _ hmem
      simp only [subMatches, beq_eq_false_iff_ne, ne_eq]
      exact hne
    · intro heq
      rw [hget]
      have hx : s.subscriptions.get ⟨j, hj⟩ = row := by
        obtain ⟨-, -, huniq⟩ := filter_eq_singleton_mem _ _ _ hone
        exact huniq _ hmem (by simpa [subMatches] using heq)
      apply patchSubscriptionMeta_target
      rw [hx]

/-- Witness for C4: updating sub_1 succeeds, returns null, and leaves every
other table untouched (subMetaArgs1 omits userId, clearing the stored
value). -/
theorem updateSubscriptionMetadata_writes_exactly_witness :
    ∃ s', updateSubscriptionMetadata store1 subMetaArgs1 =
      .ok (s', ConvexNull.null) ∧ s'.customers = store1.customers ∧
      s'.products = store1.products := by
  obtain ⟨s', h1, hprod, -, hcust, -⟩ :=
    updateSubscriptionMetadata_writes_exactly store1 subMetaArgs1
      { sysId := 5, sysCreationTime := 14, data := sub1 } (by decide)
      (by decide)
  exact ⟨s', h1, hcust, hprod⟩

end ConvexStripe
